import Mathlib

/-!
# Shallow embedding of `CDockWidget` (Qt Advanced Docking System, src/src/DockWidget.cpp)

The dock widget and the parts of its environment that its methods touch are
modelled as explicit state; toolkit calls and emitted signals are recorded in an
effect trace.  Pure C++ member functions become Lean functions
`World → World × List Effect`; the one operation that can dereference a null
pointer (`toggleViewInternal`, line 476 of the source) returns
`Option (World × List Effect)`, with `none` marking the undefined outcome.

External classes (`CDockAreaWidget`, `CDockContainerWidget`,
`CFloatingDockContainer`, `QAction`) are not part of the source excerpt; the
small slices of their behaviour that the claims need are modelled from the
spec and marked as such in their doc comments.
-/

namespace ADS

/-- QSize, carried as a pair of naturals (width, height). -/
structure QSize where
  w : Nat
  h : Nat
  deriving DecidableEq, Repr

/-- Qt.ToolButtonStyle values used by the tool-bar style fields. -/
inductive ToolButtonStyle where
  | iconOnly
  | textOnly
  | textBesideIcon
  | textUnderIcon
  deriving DecidableEq, Repr

/-- Every toolkit call and emitted signal a `CDockWidget` method performs is
recorded as one trace element. -/
inductive Effect where
  /-- `DockArea->toggleView(open)` -/
  | areaToggleView (open_ : Bool)
  /-- `DockArea->setCurrentDockWidget(w)` (widget named by id) -/
  | setCurrentDockWidget (wid : Nat)
  /-- `TabWidget->show()` -/
  | tabShow
  /-- `TabWidget->hide()` -/
  | tabHide
  /-- `Splitter->show()` on the i-th splitter ancestor -/
  | splitterShow (i : Nat)
  /-- `new CFloatingDockContainer(this)` followed by `resize(size)` -/
  | createFloatingContainer (size : QSize)
  /-- `FloatingWidget->show()` -/
  | floatingShow
  /-- `DockArea->hideAreaWithNoVisibleContent()` -/
  | hideAreaWithNoVisibleContent
  /-- `DockArea->toggleDockWidgetView(this, open)` -/
  | toggleDockWidgetView (wid : Nat) (open_ : Bool)
  /-- `DockArea->markTitleBarMenuOutdated()` -/
  | markTitleBarMenuOutdated
  /-- `TopLevelDockWidget->dockAreaWidget()->updateTitleBarVisibility()` -/
  | updateTitleBarVisibility (wid : Nat)
  /-- `emitTopLevelChanged(b)` invoked on a widget other than the modelled one -/
  | topLevelEventOther (wid : Nat) (floating : Bool)
  /-- `FloatingContainer->updateWindowTitle()` -/
  | updateWindowTitle
  /-- `TabWidget->setText(t)` -/
  | setTabText (t : String)
  /-- `ToggleViewAction->setText(t)` -/
  | setActionText (t : String)
  /-- `ToolBar->setIconSize(s)` -/
  | toolBarSetIconSize (s : QSize)
  /-- `ToolBar->setToolButtonStyle(st)` -/
  | toolBarSetToolButtonStyle (st : ToolButtonStyle)
  /-- the toggle-view action's own checked-state notification
  (fired by `QAction::setChecked` when signals are not blocked) -/
  | actionToggled (b : Bool)
  /-- `emit closed()` -/
  | sigClosed
  /-- `emit viewToggled(open)` -/
  | sigViewToggled (open_ : Bool)
  /-- `emit titleChanged(t)` -/
  | sigTitleChanged (t : String)
  /-- `emit topLevelChanged(b)` -/
  | sigTopLevelChanged (b : Bool)
  deriving DecidableEq, Repr

/-- Modelled from the spec: the owning Dock Area together with the container
facts the dock widget queries through it.  `widgets` lists the widgets docked
in the area with their open flags ("Dock Area owns zero-or-more Dock Widgets
and determines which is current"); `current` is the area's current widget;
`visible` is whether the area is shown; `splitters` is the visibility of the
chain of splitter ancestors, innermost first; `containerFloating` is
`dockContainer()->isFloating()`; `containerTopLevel` is
`dockContainer()->topLevelDockWidget()` (the container's single top-level
widget, when one exists); `floatingVisible` is the visibility of the owning
floating container. -/
structure AreaModel where
  widgets : List (Nat × Bool)
  current : Option Nat
  visible : Bool
  splitters : List Bool
  containerFloating : Bool
  containerTopLevel : Option Nat
  floatingVisible : Bool
  deriving DecidableEq, Repr

/-- The fields of `DockWidgetPrivate` and of the toolkit objects the dock
widget owns (its toggle-view `QAction`, its tab, its optional tool bar), plus
the widget's own title, size, visibility and parent. -/
structure WidgetState where
  /-- identity of the widget (its object name stands behind this id) -/
  id : Nat
  /-- `windowTitle()` -/
  title : String
  /-- `size()` -/
  size : QSize
  /-- `d->Closed` -/
  Closed : Bool
  /-- `d->ToggleViewAction->isChecked()` -/
  actionChecked : Bool
  /-- `d->ToggleViewAction->signalsBlocked()` -/
  actionBlocked : Bool
  /-- `d->ToggleViewAction->isCheckable()` -/
  actionCheckable : Bool
  /-- `d->ToggleViewAction->text()` -/
  actionText : String
  /-- `d->ToggleViewAction != nullptr` -/
  hasAction : Bool
  /-- `d->TabWidget != nullptr` -/
  hasTab : Bool
  /-- `d->TabWidget->isVisible()` -/
  tabVisible : Bool
  /-- `d->TabWidget->text()` -/
  tabText : String
  /-- the tab's parent is the dock widget itself -/
  tabParentIsWidget : Bool
  /-- the widget's parent is the (process-wide) dock manager -/
  parentIsManager : Bool
  /-- `isVisible()` of the dock widget -/
  visible : Bool
  /-- `d->IsFloatingTopLevel` -/
  IsFloatingTopLevel : Bool
  /-- `d->ToolBar != nullptr` -/
  hasToolBar : Bool
  /-- `d->ToolBarStyleDocked` -/
  ToolBarStyleDocked : ToolButtonStyle
  /-- `d->ToolBarStyleFloating` -/
  ToolBarStyleFloating : ToolButtonStyle
  /-- `d->ToolBarIconSizeDocked` -/
  ToolBarIconSizeDocked : QSize
  /-- `d->ToolBarIconSizeFloating` -/
  ToolBarIconSizeFloating : QSize
  /-- `d->ToolBar->iconSize()` -/
  toolBarIconSize : QSize
  /-- `d->ToolBar->toolButtonStyle()` -/
  toolBarButtonStyle : ToolButtonStyle
  deriving DecidableEq, Repr

/-- The world a `CDockWidget` method can reach: the widget itself and its
owning Dock Area (`d->DockArea`, `none` when the widget is unassigned). -/
structure World where
  w : WidgetState
  area : Option AreaModel
  deriving DecidableEq, Repr

/-- `QAction::setChecked`: updates the checked state; the action's own
checked-state notification fires only when the value changes and signals are
not blocked (modelled from the spec: "setting a checked state is a
guarded/silenced assignment"). -/
def QAction.setChecked (ws : WidgetState) (b : Bool) : WidgetState × List Effect :=
  ({ ws with actionChecked := b },
    if ws.actionBlocked || (ws.actionChecked == b) then [] else [Effect.actionToggled b])

/-- `CDockWidget::isClosed` (line 387). -/
def CDockWidget.isClosed (st : World) : Bool :=
  st.w.Closed

/-- `CDockWidget::dockContainer` (line 336): the area's container when an area
is assigned, null otherwise.  The container facts live inside `AreaModel`, so
the container is represented by the area record itself. -/
def CDockWidget.dockContainer (st : World) : Option AreaModel :=
  match st.area with
  | some a => some a
  | none => none

/-- Modelled from the spec: `CDockAreaWidget::nextOpenDockWidget(w)` — "asks
the owning area to pick the next open widget": the first widget of the area
other than `w` whose open flag is set, if any. -/
def AreaModel.nextOpenDockWidget (a : AreaModel) (wid : Nat) : Option Nat :=
  (a.widgets.find? (fun p => p.1 ≠ wid && p.2)).map (·.1)

/-- The `while (Splitter && !Splitter->isVisible())` loop of
`DockWidgetPrivate::showDockWidget` (lines 134-139): walking outward, every
hidden splitter is shown; the walk stops at the first visible splitter. -/
def showSplitters : List Bool → List Bool
  | [] => []
  | b :: rest => if b then b :: rest else true :: showSplitters rest

/-- Trace of `Splitter->show()` calls the loop performs, starting at ancestor
index `i`. -/
def showSplittersTrace (i : Nat) : List Bool → List Effect
  | [] => []
  | b :: rest => if b then [] else Effect.splitterShow i :: showSplittersTrace (i + 1) rest

/-- `DockWidgetPrivate::showDockWidget` (lines 121-149).  The unassigned
branch constructs a `CFloatingDockContainer` around the widget; that
construction is external code, modelled from the spec: "creates a new floating
top-level container sized to the widget's current size and shows it", and (per
the spec's edge case) the widget gains a container — it ends docked, current
and sole top-level widget in a fresh floating area. -/
def DockWidgetPrivate.showDockWidget (st : World) : World × List Effect :=
  match st.area with
  | none =>
      ({ st with area := some {
            widgets := [(st.w.id, true)]
            current := some st.w.id
            visible := true
            splitters := []
            containerFloating := true
            containerTopLevel := some st.w.id
            floatingVisible := true } },
        [Effect.createFloatingContainer st.w.size, Effect.floatingShow])
  | some a =>
      let a1 : AreaModel :=
        { a with
            visible := true
            current := some st.w.id
            splitters := showSplitters a.splitters }
      let baseTrace : List Effect :=
        Effect.areaToggleView true :: Effect.setCurrentDockWidget st.w.id ::
          Effect.tabShow :: showSplittersTrace 0 a.splitters
      if a.containerFloating then
        ({ w := { st.w with tabVisible := true }
           area := some { a1 with floatingVisible := true } },
          baseTrace ++ [Effect.floatingShow])
      else
        ({ w := { st.w with tabVisible := true }
           area := some a1 },
          baseTrace)

/-- `DockWidgetPrivate::updateParentDockArea` (lines 161-177).
`setCurrentDockWidget` and `hideAreaWithNoVisibleContent` are external;
modelled from the spec: the former makes the chosen widget current, the latter
"signals the area to hide itself entirely". -/
def DockWidgetPrivate.updateParentDockArea (st : World) : World × List Effect :=
  match st.area with
  | none => (st, [])
  | some a =>
      match a.nextOpenDockWidget st.w.id with
      | some n =>
          ({ st with area := some { a with current := some n } },
            [Effect.setCurrentDockWidget n])
      | none =>
          ({ st with area := some { a with visible := false } },
            [Effect.hideAreaWithNoVisibleContent])

/-- `DockWidgetPrivate::hideDockWidget` (lines 153-157). -/
def DockWidgetPrivate.hideDockWidget (st : World) : World × List Effect :=
  let st1 : World := { st with w := { st.w with tabVisible := false } }
  let r := DockWidgetPrivate.updateParentDockArea st1
  (r.1, Effect.tabHide :: r.2)

/-- `CDockWidget::emitTopLevelChanged` (lines 709-716): update the cached
top-level-floating flag and emit `topLevelChanged` only when the value
changes. -/
def CDockWidget.emitTopLevelChanged (ws : WidgetState) (Floating : Bool) :
    WidgetState × List Effect :=
  if Floating != ws.IsFloatingTopLevel then
    ({ ws with IsFloatingTopLevel := Floating }, [Effect.sigTopLevelChanged Floating])
  else
    (ws, [])

/-- `CDockWidget::emitTopLevelEventForWidget` (lines 698-705): a null widget
is ignored; otherwise the widget's area title bar is refreshed and
`emitTopLevelChanged` runs on that widget.  When the target is the modelled
widget its state changes; a different widget's internals are outside the
modelled world, so the call on it is recorded as a trace element. -/
def CDockWidget.emitTopLevelEventForWidget (st : World) (tl : Option Nat)
    (Floating : Bool) : World × List Effect :=
  match tl with
  | none => (st, [])
  | some wid =>
      if wid = st.w.id then
        let p := CDockWidget.emitTopLevelChanged st.w Floating
        ({ st with w := p.1 }, Effect.updateTitleBarVisibility wid :: p.2)
      else
        (st, [Effect.updateTitleBarVisibility wid, Effect.topLevelEventOther wid Floating])

/-- `CDockWidget::toggleViewInternal` (lines 441-487), the "real transition".
`DockArea->toggleDockWidgetView(this, Open)` is external; modelled from the
spec: "the owning area is told to update its internal visible-widget
bookkeeping", i.e. the open flag stored for this widget in the area becomes
`Open`.  The unguarded `DockContainer->floatingWidget()` of line 476 makes the
result `none` when the re-queried container is null. -/
def CDockWidget.toggleViewInternal (st : World) (Open : Bool) :
    Option (World × List Effect) :=
  let TopLevelBefore : Option Nat :=
    (CDockWidget.dockContainer st).bind (·.containerTopLevel)
  let r1 : World × List Effect :=
    if Open then DockWidgetPrivate.showDockWidget st
    else DockWidgetPrivate.hideDockWidget st
  let st2 : World := { r1.1 with w := { r1.1.w with Closed := !Open } }
  let p3 := QAction.setChecked { st2.w with actionBlocked := true } Open
  let st3 : World := { st2 with w := { p3.1 with actionBlocked := false } }
  let r4 : World × List Effect :=
    match st3.area with
    | some a =>
        ({ st3 with area := some { a with
              widgets := a.widgets.map
                (fun p => if p.1 = st3.w.id then (p.1, Open) else p) } },
          [Effect.toggleDockWidgetView st3.w.id Open])
    | none => (st3, [])
  let r5 : World × List Effect :=
    if Open && TopLevelBefore.isSome then
      CDockWidget.emitTopLevelEventForWidget r4.1 TopLevelBefore false
    else (r4.1, [])
  let DockContainerAfter : Option AreaModel := CDockWidget.dockContainer r5.1
  let TopLevelAfter : Option Nat := DockContainerAfter.bind (·.containerTopLevel)
  let r6 : World × List Effect :=
    CDockWidget.emitTopLevelEventForWidget r5.1 TopLevelAfter true
  match DockContainerAfter with
  | none => none
  | some c =>
      let eFloat : List Effect :=
        if c.containerFloating then [Effect.updateWindowTitle] else []
      let eClose : List Effect := if !Open then [Effect.sigClosed] else []
      some (r6.1,
        r1.2 ++ p3.2 ++ r4.2 ++ r5.2 ++ r6.2 ++ eFloat ++ eClose
          ++ [Effect.sigViewToggled Open])

/-- `CDockWidget::toggleView` (lines 417-437).  `senderIsToggleAction` tells
whether the call was dispatched from the toggle-view action's own `triggered`
signal (the `qobject_cast<QAction*>(sender()) == d->ToggleViewAction` test). -/
def CDockWidget.toggleView (st : World) (senderIsToggleAction : Bool)
    (Open : Bool) : Option (World × List Effect) :=
  let Open := if senderIsToggleAction && !st.w.actionCheckable then true else Open
  if st.w.Closed != (!Open) then
    CDockWidget.toggleViewInternal st Open
  else if Open then
    match st.area with
    | some a =>
        some ({ st with area := some { a with current := some st.w.id } },
          [Effect.setCurrentDockWidget st.w.id])
    | none => some (st, [])
  else
    some (st, [])

/-- `CDockWidget::setDockArea` (lines 491-495). -/
def CDockWidget.setDockArea (st : World) (a : Option AreaModel) :
    World × List Effect :=
  let st1 : World := { st with area := a }
  let p := QAction.setChecked st1.w (a.isSome && !(CDockWidget.isClosed st1))
  ({ st1 with w := p.1 }, p.2)

/-- `CDockWidget::setToggleViewActionChecked` (lines 233-239):
`blockSignals(true); setChecked(Checked); blockSignals(false)`. -/
def CDockWidget.setToggleViewActionChecked (ws : WidgetState) (Checked : Bool) :
    WidgetState × List Effect :=
  let p := QAction.setChecked { ws with actionBlocked := true } Checked
  ({ p.1 with actionBlocked := false }, p.2)

/-- `CDockWidget::flagAsUnassigned` (lines 509-516). -/
def CDockWidget.flagAsUnassigned (st : World) : World × List Effect :=
  let st1 : World := { st with w := { st.w with Closed := true } }
  let st2 : World := { st1 with w := { st1.w with parentIsManager := true } }
  let st3 : World := { st2 with w := { st2.w with visible := false } }
  let p := CDockWidget.setDockArea st3 none
  ({ p.1 with w := { p.1.w with tabParentIsWidget := true } }, p.2)

/-- The event kinds `CDockWidget::event` distinguishes. -/
inductive QEventType where
  | WindowTitleChange
  | Other
  deriving DecidableEq, Repr

/-- `CDockWidget::event` (lines 520-540).  The toolkit stores the new window
title on the widget before delivering the `WindowTitleChange` event, so the
handler reads it from `st.w.title`. -/
def CDockWidget.event (st : World) (e : QEventType) : World × List Effect :=
  match e with
  | QEventType.Other => (st, [])
  | QEventType.WindowTitleChange =>
      let title := st.w.title
      let p1 : World × List Effect :=
        if st.w.hasTab then
          ({ st with w := { st.w with tabText := title } }, [Effect.setTabText title])
        else (st, [])
      let p2 : World × List Effect :=
        if p1.1.w.hasAction then
          ({ p1.1 with w := { p1.1.w with actionText := title } },
            [Effect.setActionText title])
        else (p1.1, [])
      let e3 : List Effect :=
        match st.area with
        | some _ => [Effect.markTitleBarMenuOutdated]
        | none => []
      (p2.1, p1.2 ++ p2.2 ++ e3 ++ [Effect.sigTitleChanged title])

/-- `CDockWidget::setToolbarFloatingStyle` (lines 676-694). -/
def CDockWidget.setToolbarFloatingStyle (ws : WidgetState) (Floating : Bool) :
    WidgetState × List Effect :=
  if !ws.hasToolBar then
    (ws, [])
  else
    let IconSize := if Floating then ws.ToolBarIconSizeFloating else ws.ToolBarIconSizeDocked
    let p1 : WidgetState × List Effect :=
      if IconSize ≠ ws.toolBarIconSize then
        ({ ws with toolBarIconSize := IconSize }, [Effect.toolBarSetIconSize IconSize])
      else (ws, [])
    let ButtonStyle := if Floating then ws.ToolBarStyleFloating else ws.ToolBarStyleDocked
    if ButtonStyle ≠ p1.1.toolBarButtonStyle then
      ({ p1.1 with toolBarButtonStyle := ButtonStyle },
        p1.2 ++ [Effect.toolBarSetToolButtonStyle ButtonStyle])
    else
      (p1.1, p1.2)

/-- The widget produced by the constructor `CDockWidget::CDockWidget(title,
parent)` (lines 205-222): open, unassigned, checkable unchecked action with
the title as text, no tool bar yet, tool-bar style defaults from
`DockWidgetPrivate` (lines 72-75). -/
def newDockWidget (wid : Nat) (title : String) (size : QSize) : World :=
  { w := {
      id := wid
      title := title
      size := size
      Closed := false
      actionChecked := false
      actionBlocked := false
      actionCheckable := true
      actionText := title
      hasAction := true
      hasTab := true
      tabVisible := false
      tabText := title
      tabParentIsWidget := true
      parentIsManager := false
      visible := false
      IsFloatingTopLevel := false
      hasToolBar := false
      ToolBarStyleDocked := ToolButtonStyle.iconOnly
      ToolBarStyleFloating := ToolButtonStyle.textUnderIcon
      ToolBarIconSizeDocked := { w := 16, h := 16 }
      ToolBarIconSizeFloating := { w := 24, h := 24 }
      toolBarIconSize := { w := 0, h := 0 }
      toolBarButtonStyle := ToolButtonStyle.iconOnly }
    area := none }

/-- Effects that are emitted Qt signals of the dock widget or of its toggle
action. -/
def Effect.isSignal : Effect → Bool
  | Effect.actionToggled _ => true
  | Effect.sigClosed => true
  | Effect.sigViewToggled _ => true
  | Effect.sigTitleChanged _ => true
  | Effect.sigTopLevelChanged _ => true
  | _ => false

/-- The `viewToggled` signal, fired exactly once per real transition. -/
def Effect.isViewToggled : Effect → Bool
  | Effect.sigViewToggled _ => true
  | _ => false

/-- The toggle action's own checked-state notification. -/
def Effect.isActionNote : Effect → Bool
  | Effect.actionToggled _ => true
  | _ => false

/-- The `titleChanged` signal. -/
def Effect.isTitleChanged : Effect → Bool
  | Effect.sigTitleChanged _ => true
  | _ => false

/-- The `topLevelChanged` signal. -/
def Effect.isTopLevelChanged : Effect → Bool
  | Effect.sigTopLevelChanged _ => true
  | _ => false

/-- Toolkit calls that restyle the tool bar (`setIconSize`,
`setToolButtonStyle`). -/
def Effect.isToolBarCall : Effect → Bool
  | Effect.toolBarSetIconSize _ => true
  | Effect.toolBarSetToolButtonStyle _ => true
  | _ => false

/-- Number of real transitions recorded in a trace: every execution of
`toggleViewInternal` emits `viewToggled` exactly once (line 486) and nothing
else emits it. -/
def realTransitionCount (t : List Effect) : Nat :=
  (t.filter Effect.isViewToggled).length

/-- The current widget of the widget's area (none when unassigned or when the
area has no current widget). -/
def World.currentWidget (st : World) : Option Nat :=
  match st.area with
  | none => none
  | some a => a.current

/-- Number of value changes along a sequence of observations. -/
def changeCount : List (Option Nat) → Nat
  | a :: b :: rest => (if a == b then 0 else 1) + changeCount (b :: rest)
  | _ => 0

/-- Toolkit visibility is effective: a widget is visible only when all of its
ancestors are, so along the splitter ancestor chain (innermost first) a
visible splitter is never below a hidden one. -/
def splitterChainOk : List Bool → Bool
  | [] => true
  | true :: rest => rest.all (· == true)
  | false :: rest => splitterChainOk rest

/-- Well-formedness of the widget/area graph: an assigned widget is listed in
its area with the matching open flag, a closed widget is not the area's
current widget (the current widget is a visible tab), and the splitter chain
respects effective visibility.  An unassigned widget is always well formed —
per the data model, "Unassigned" is one of the three states, and the
constructor itself produces an open unassigned widget. -/
def World.wellFormed (st : World) : Bool :=
  match st.area with
  | none => true
  | some a =>
      a.widgets.contains (st.w.id, !st.w.Closed) &&
      (!st.w.Closed || !(a.current == some st.w.id)) &&
      splitterChainOk a.splitters

/-- Sample size used by the concrete sample widgets. -/
def sampleSize : QSize := { w := 100, h := 80 }

/-- The spec's example widget "Logs", fresh from the constructor
(open, unassigned). -/
def logsWidget : World := newDockWidget 0 "Logs" sampleSize

/-- "Logs", unassigned and closed (the starting point of the spec's floating
example scenario). -/
def logsClosedUnassigned : World :=
  { logsWidget with w := { logsWidget.w with Closed := true } }

/-- A sample area holding an open sibling (id 1) and the closed widget 0,
inside a non-floating container; the sibling is current. -/
def sampleArea : AreaModel :=
  { widgets := [(1, true), (0, false)]
    current := some 1
    visible := true
    splitters := [false, true]
    containerFloating := false
    containerTopLevel := some 1
    floatingVisible := false }

/-- "Logs", closed and assigned to `sampleArea`. -/
def logsClosedAssigned : World :=
  { w := { logsWidget.w with Closed := true }, area := some sampleArea }

/-- `sampleArea` with both widgets open (widget 0 included open). -/
def sampleAreaAllOpen : AreaModel :=
  { sampleArea with widgets := [(1, true), (0, true)], current := some 0 }

/-- "Logs", open and assigned with an open sibling (closing it is a non-last
close). -/
def logsOpenAssigned : World :=
  { w := logsWidget.w, area := some sampleAreaAllOpen }

/-- `sampleArea` where widget 0 is the only open widget. -/
def sampleAreaOnlyLogsOpen : AreaModel :=
  { sampleArea with widgets := [(1, false), (0, true)], current := some 0 }

/-- "Logs", open and the last open widget of its area. -/
def logsOpenLast : World :=
  { w := logsWidget.w, area := some sampleAreaOnlyLogsOpen }

/-- A widget state with a tool bar whose current icon size and button style
already equal the docked defaults. -/
def toolBarWidget : WidgetState :=
  { logsWidget.w with
      hasToolBar := true
      toolBarIconSize := { w := 16, h := 16 }
      toolBarButtonStyle := ToolButtonStyle.iconOnly }

/-- The claimed behaviour of a no-op `toggleView(true)` (requested state =
current state = open): no real transition — widget record untouched, no
signal emitted — and the widget merely becomes the current one of its
assigned area (nothing at all happens when it is unassigned). -/
def ToggleNoOpSpec (st : World) : Prop :=
  (CDockWidget.toggleView st false true).isSome = true ∧
  (CDockWidget.toggleView st false true).elim True (fun pr =>
    pr.1.w = st.w ∧
    pr.2.filter Effect.isSignal = [] ∧
    realTransitionCount pr.2 = 0 ∧
    (∀ a, st.area = some a →
      pr.1.area = some { a with current := some st.w.id } ∧
      pr.2 = [Effect.setCurrentDockWidget st.w.id]) ∧
    (st.area = none → pr.1 = st ∧ pr.2 = []))

/-- The claimed behaviour when the requested state differs from the current
state: exactly one real transition (one `viewToggled` emission). -/
def ToggleDifferSpec (st : World) (Open : Bool) : Prop :=
  (CDockWidget.toggleView st false Open).isSome = true ∧
  (CDockWidget.toggleView st false Open).elim True
    (fun pr => realTransitionCount pr.2 = 1)

/-- The claimed behaviour of `toggleView(true)` called twice on a closed
widget: exactly one real transition over both calls, and the current widget
of the widget's area changes exactly once along the way. -/
def ToggleTwiceSpec (st : World) : Prop :=
  (CDockWidget.toggleView st false true).isSome = true ∧
  (CDockWidget.toggleView st false true).elim True (fun pr1 =>
    (CDockWidget.toggleView pr1.1 false true).isSome = true ∧
    (CDockWidget.toggleView pr1.1 false true).elim True (fun pr2 =>
      realTransitionCount (pr1.2 ++ pr2.2) = 1 ∧
      changeCount [st.currentWidget, pr1.1.currentWidget, pr2.1.currentWidget] = 1))

/-- The toggle-action invariant of the spec: checked ⇔ assigned and open. -/
def CheckedInvariantSpec (st : World) : Prop :=
  st.w.actionChecked = (st.area.isSome && !st.w.Closed)

/-- The claimed behaviour of a real open transition on an unassigned widget:
a floating container is created with the widget's size and shown, the widget
ends open with its action checked, docked current in a fresh visible floating
area. -/
def OpenUnassignedSpec (st : World) : Prop :=
  (CDockWidget.toggleViewInternal st true).isSome = true ∧
  (CDockWidget.toggleViewInternal st true).elim True (fun pr =>
    pr.2.take 2 = [Effect.createFloatingContainer st.w.size, Effect.floatingShow] ∧
    CDockWidget.isClosed pr.1 = false ∧
    pr.1.w.actionChecked = true ∧
    ∃ a, pr.1.area = some a ∧ a.containerFloating = true ∧
      a.floatingVisible = true ∧ a.visible = true ∧ a.current = some st.w.id)

/-- The claimed behaviour of a real open transition on an assigned widget:
the area is asked to become visible, the widget becomes current, its tab is
shown, every hidden splitter ancestor becomes visible, and the owning
floating container is shown when the container is floating. -/
def OpenAssignedSpec (st : World) (a : AreaModel) : Prop :=
  (CDockWidget.toggleViewInternal st true).isSome = true ∧
  (CDockWidget.toggleViewInternal st true).elim True (fun pr =>
    Effect.areaToggleView true ∈ pr.2 ∧
    Effect.setCurrentDockWidget st.w.id ∈ pr.2 ∧
    Effect.tabShow ∈ pr.2 ∧
    pr.1.w.tabVisible = true ∧
    CDockWidget.isClosed pr.1 = false ∧
    pr.1.w.actionChecked = true ∧
    ∃ a', pr.1.area = some a' ∧ a'.visible = true ∧ a'.current = some st.w.id ∧
      a'.splitters = List.replicate a.splitters.length true ∧
      (a.containerFloating = true →
        a'.floatingVisible = true ∧ Effect.floatingShow ∈ pr.2))

/-- The claimed behaviour of a real close transition on an assigned open
widget: the tab is hidden, then either the next open widget becomes current
(area stays visible) or, when no open widget remains, the area is told to
hide itself; "no open widget remains" is exactly `nextOpenDockWidget = none`. -/
def CloseTransitionSpec (st : World) (a : AreaModel) : Prop :=
  (CDockWidget.toggleViewInternal st false).isSome = true ∧
  (CDockWidget.toggleViewInternal st false).elim True (fun pr =>
    pr.1.w.tabVisible = false ∧
    Effect.tabHide ∈ pr.2 ∧
    (∀ n, a.nextOpenDockWidget st.w.id = some n →
      ∃ a', pr.1.area = some a' ∧ a'.current = some n ∧ a'.visible = true ∧
        Effect.setCurrentDockWidget n ∈ pr.2) ∧
    (a.nextOpenDockWidget st.w.id = none →
      ∃ a', pr.1.area = some a' ∧ a'.visible = false ∧
        Effect.hideAreaWithNoVisibleContent ∈ pr.2)) ∧
  (a.nextOpenDockWidget st.w.id = none ↔ ∀ p ∈ a.widgets, p.1 = st.w.id ∨ p.2 = false)

/-- The claimed behaviour of a window-title-change event: tab text and action
text become the (new) title, the area's title-bar menu is marked outdated
exactly when an area is assigned, and exactly one `titleChanged` signal
carrying the new title is emitted. -/
def TitleChangeSpec (st : World) : Prop :=
  (CDockWidget.event st QEventType.WindowTitleChange).1.w.tabText = st.w.title ∧
  (CDockWidget.event st QEventType.WindowTitleChange).1.w.actionText = st.w.title ∧
  (CDockWidget.event st QEventType.WindowTitleChange).2.filter Effect.isTitleChanged
    = [Effect.sigTitleChanged st.w.title] ∧
  (st.area.isSome = true →
    Effect.markTitleBarMenuOutdated ∈ (CDockWidget.event st QEventType.WindowTitleChange).2) ∧
  (st.area = none →
    Effect.markTitleBarMenuOutdated ∉ (CDockWidget.event st QEventType.WindowTitleChange).2)

theorem dockContainer_eq (st : World) : CDockWidget.dockContainer st = st.area := by
  rcases st with ⟨w, area⟩
  cases area <;> rfl

theorem emitTLE_fields (st : World) (tl : Option Nat) (b : Bool) :
    (CDockWidget.emitTopLevelEventForWidget st tl b).1.area = st.area ∧
    (CDockWidget.emitTopLevelEventForWidget st tl b).1.w.Closed = st.w.Closed ∧
    (CDockWidget.emitTopLevelEventForWidget st tl b).1.w.actionChecked = st.w.actionChecked ∧
    (CDockWidget.emitTopLevelEventForWidget st tl b).1.w.id = st.w.id ∧
    (CDockWidget.emitTopLevelEventForWidget st tl b).1.w.tabVisible = st.w.tabVisible ∧
    (CDockWidget.emitTopLevelEventForWidget st tl b).1.w.actionBlocked = st.w.actionBlocked := by
  cases tl with
  | none => exact ⟨rfl, rfl, rfl, rfl, rfl, rfl⟩
  | some wid =>
      simp only [CDockWidget.emitTopLevelEventForWidget, CDockWidget.emitTopLevelChanged]
      split
      · split <;> exact ⟨rfl, rfl, rfl, rfl, rfl, rfl⟩
      · exact ⟨rfl, rfl, rfl, rfl, rfl, rfl⟩

theorem emitTLE_filter (p : Effect → Bool)
    (h10 : ∀ n, p (Effect.updateTitleBarVisibility n) = false)
    (h11 : ∀ n b, p (Effect.topLevelEventOther n b) = false)
    (h13 : ∀ b, p (Effect.sigTopLevelChanged b) = false)
    (st : World) (tl : Option Nat) (b : Bool) :
    (CDockWidget.emitTopLevelEventForWidget st tl b).2.filter p = [] := by
  cases tl with
  | none => rfl
  | some wid =>
      simp only [CDockWidget.emitTopLevelEventForWidget, CDockWidget.emitTopLevelChanged]
      split
      · split <;> simp [List.filter, h10, h11, h13]
      · simp [List.filter, h10, h11, h13]

theorem showSplittersTrace_filter (p : Effect → Bool)
    (h : ∀ j, p (Effect.splitterShow j) = false) :
    ∀ (i : Nat) (l : List Bool), (showSplittersTrace i l).filter p = [] := by
  intro i l
  induction l generalizing i with
  | nil => rfl
  | cons b rest ih =>
      cases b <;> simp [showSplittersTrace, List.filter, h, ih]

theorem showSplitters_of_chainOk (l : List Bool) (h : splitterChainOk l = true) :
    showSplitters l = List.replicate l.length true := by
  induction l with
  | nil => rfl
  | cons b rest ih =>
      cases b with
      | false =>
          simp only [splitterChainOk] at h
          simp [showSplitters, List.replicate, ih h]
      | true =>
          simp only [splitterChainOk, List.all_eq_true] at h
          simp only [showSplitters, List.length_cons, List.replicate]
          have : rest = List.replicate rest.length true := by
            exact List.eq_replicate_length.mpr (fun x hx => by
              have := h x hx
              simpa using this)
          exact congrArg (true :: ·) this




theorem showDockWidget_filter (p : Effect → Bool)
    (h1 : ∀ b, p (Effect.areaToggleView b) = false)
    (h2 : ∀ n, p (Effect.setCurrentDockWidget n) = false)
    (h3 : p Effect.tabShow = false)
    (h5 : ∀ j, p (Effect.splitterShow j) = false)
    (h6 : ∀ s, p (Effect.createFloatingContainer s) = false)
    (h7 : p Effect.floatingShow = false)
    (st : World) :
    (DockWidgetPrivate.showDockWidget st).2.filter p = [] := by
  rcases st with ⟨w, area⟩
  cases area with
  | none => simp [DockWidgetPrivate.showDockWidget, List.filter, h6, h7]
  | some a =>
      simp only [DockWidgetPrivate.showDockWidget]
      split <;>
        simp [List.filter_append, List.filter, h1, h2, h3, h7,
          showSplittersTrace_filter p h5]

theorem hideDockWidget_filter (p : Effect → Bool)
    (h2 : ∀ n, p (Effect.setCurrentDockWidget n) = false)
    (h4 : p Effect.tabHide = false)
    (h8 : p Effect.hideAreaWithNoVisibleContent = false)
    (st : World) :
    (DockWidgetPrivate.hideDockWidget st).2.filter p = [] := by
  rcases st with ⟨w, area⟩
  cases area with
  | none => simp [DockWidgetPrivate.hideDockWidget, DockWidgetPrivate.updateParentDockArea, List.filter, h4]
  | some a =>
      simp only [DockWidgetPrivate.hideDockWidget, DockWidgetPrivate.updateParentDockArea]
      cases hn : a.nextOpenDockWidget w.id <;>
        simp [hn, List.filter, h2, h4, h8]



theorem toggleViewInternal_filter (p : Effect → Bool)
    (h1 : ∀ b, p (Effect.areaToggleView b) = false)
    (h2 : ∀ n, p (Effect.setCurrentDockWidget n) = false)
    (h3 : p Effect.tabShow = false)
    (h4 : p Effect.tabHide = false)
    (h5 : ∀ j, p (Effect.splitterShow j) = false)
    (h6 : ∀ s, p (Effect.createFloatingContainer s) = false)
    (h7 : p Effect.floatingShow = false)
    (h8 : p Effect.hideAreaWithNoVisibleContent = false)
    (h9 : ∀ n b, p (Effect.toggleDockWidgetView n b) = false)
    (h10 : ∀ n, p (Effect.updateTitleBarVisibility n) = false)
    (h11 : ∀ n b, p (Effect.topLevelEventOther n b) = false)
    (h12 : p Effect.updateWindowTitle = false)
    (h13 : ∀ b, p (Effect.sigTopLevelChanged b) = false)
    (h14 : p Effect.sigClosed = false)
    (st : World) (Open : Bool) :
    (CDockWidget.toggleViewInternal st Open).elim True
      (fun pr => pr.2.filter p = [Effect.sigViewToggled Open].filter p) := by
  have hTLEf := emitTLE_filter p h10 h11 h13
  have hTLEa : ∀ (s : World) (tl : Option Nat) (b : Bool),
      (CDockWidget.emitTopLevelEventForWidget s tl b).1.area = s.area :=
    fun s tl b => (emitTLE_fields s tl b).1
  rcases st with ⟨w, area⟩
  cases Open
  · -- close
    cases area with
    | none =>
        simp [CDockWidget.toggleViewInternal, DockWidgetPrivate.hideDockWidget,
          DockWidgetPrivate.updateParentDockArea, dockContainer_eq, QAction.setChecked]
    | some a =>
        cases hcf : a.containerFloating <;>
        cases hn : a.nextOpenDockWidget w.id <;>
          simp [CDockWidget.toggleViewInternal, DockWidgetPrivate.hideDockWidget,
            DockWidgetPrivate.updateParentDockArea, dockContainer_eq, QAction.setChecked,
            hn, hcf, hTLEf, hTLEa, List.filter_append, List.filter,
            h2, h4, h8, h9, h12, h14]
  · -- open
    cases area with
    | none =>
        simp [CDockWidget.toggleViewInternal, DockWidgetPrivate.showDockWidget,
          dockContainer_eq, QAction.setChecked, hTLEf, hTLEa,
          List.filter_append, List.filter, h6, h7, h9, h12]
    | some a =>
        cases hcf : a.containerFloating <;>
        cases htl : a.containerTopLevel <;>
          simp [CDockWidget.toggleViewInternal, DockWidgetPrivate.showDockWidget,
            dockContainer_eq, QAction.setChecked, hcf, htl, hTLEf, hTLEa,
            List.filter_append, List.filter, h1, h2, h3, h7, h9, h12,
            showSplittersTrace_filter p h5]



theorem toggleViewInternal_state (st : World) (Open : Bool) :
    (CDockWidget.toggleViewInternal st Open).elim True (fun pr =>
      pr.1.w.Closed = !Open ∧
      pr.1.w.actionChecked = Open ∧
      pr.1.w.id = st.w.id ∧
      pr.1.area.isSome = true ∧
      (Open = true → pr.1.currentWidget = some st.w.id) ∧
      (Open = false → pr.1.w.tabVisible = false)) := by
  have hTLEa : ∀ (s : World) (tl : Option Nat) (b : Bool),
      (CDockWidget.emitTopLevelEventForWidget s tl b).1.area = s.area :=
    fun s tl b => (emitTLE_fields s tl b).1
  have hTLEc : ∀ (s : World) (tl : Option Nat) (b : Bool),
      (CDockWidget.emitTopLevelEventForWidget s tl b).1.w.Closed = s.w.Closed :=
    fun s tl b => (emitTLE_fields s tl b).2.1
  have hTLEk : ∀ (s : World) (tl : Option Nat) (b : Bool),
      (CDockWidget.emitTopLevelEventForWidget s tl b).1.w.actionChecked = s.w.actionChecked :=
    fun s tl b => (emitTLE_fields s tl b).2.2.1
  have hTLEi : ∀ (s : World) (tl : Option Nat) (b : Bool),
      (CDockWidget.emitTopLevelEventForWidget s tl b).1.w.id = s.w.id :=
    fun s tl b => (emitTLE_fields s tl b).2.2.2.1
  have hTLEt : ∀ (s : World) (tl : Option Nat) (b : Bool),
      (CDockWidget.emitTopLevelEventForWidget s tl b).1.w.tabVisible = s.w.tabVisible :=
    fun s tl b => (emitTLE_fields s tl b).2.2.2.2.1
  rcases st with ⟨w, area⟩
  cases Open
  · cases area with
    | none =>
        simp [CDockWidget.toggleViewInternal, DockWidgetPrivate.hideDockWidget,
          DockWidgetPrivate.updateParentDockArea, dockContainer_eq, QAction.setChecked]
    | some a =>
        cases hcf : a.containerFloating <;>
        cases hn : a.nextOpenDockWidget w.id <;>
          simp [CDockWidget.toggleViewInternal, DockWidgetPrivate.hideDockWidget,
            DockWidgetPrivate.updateParentDockArea, dockContainer_eq, QAction.setChecked,
            hn, hcf, hTLEa, hTLEc, hTLEk, hTLEi, hTLEt, World.currentWidget]
  · cases area with
    | none =>
        simp [CDockWidget.toggleViewInternal, DockWidgetPrivate.showDockWidget,
          dockContainer_eq, QAction.setChecked, hTLEa, hTLEc, hTLEk, hTLEi, hTLEt,
          World.currentWidget]
    | some a =>
        cases hcf : a.containerFloating <;>
        cases htl : a.containerTopLevel <;>
          simp [CDockWidget.toggleViewInternal, DockWidgetPrivate.showDockWidget,
            dockContainer_eq, QAction.setChecked, hcf, htl,
            hTLEa, hTLEc, hTLEk, hTLEi, hTLEt, World.currentWidget]



/-- C6: after `flagAsUnassigned` completes, the widget is closed, its
dock-area reference is null, its toggle action is unchecked, the widget is
hidden, the widget is reparented under the process-wide dock manager, and its
tab is reparented under the widget itself. -/
theorem flagAsUnassigned_postconditions (st : World) :
    (CDockWidget.flagAsUnassigned st).1.w.Closed = true ∧
    (CDockWidget.flagAsUnassigned st).1.area = none ∧
    (CDockWidget.flagAsUnassigned st).1.w.actionChecked = false ∧
    (CDockWidget.flagAsUnassigned st).1.w.visible = false ∧
    (CDockWidget.flagAsUnassigned st).1.w.parentIsManager = true ∧
    (CDockWidget.flagAsUnassigned st).1.w.tabParentIsWidget = true := by
  simp [CDockWidget.flagAsUnassigned, CDockWidget.setDockArea, QAction.setChecked,
    CDockWidget.isClosed]

/-- C7: programmatic synchronization of the toggle action's checked state —
through `setToggleViewActionChecked` or the guarded assignment inside
`toggleViewInternal` — never fires the action's own notification, so a real
transition is never re-entered through the action's `triggered` connection. -/
theorem programmatic_sync_never_fires_action (ws : WidgetState) (b : Bool)
    (st : World) (Open : Bool) :
    (CDockWidget.setToggleViewActionChecked ws b).2.filter Effect.isActionNote = [] ∧
    (CDockWidget.toggleViewInternal st Open).elim True
      (fun pr => pr.2.filter Effect.isActionNote = []) := by
  constructor
  · simp [CDockWidget.setToggleViewActionChecked, QAction.setChecked]
  · have h := toggleViewInternal_filter Effect.isActionNote
      (fun _ => rfl) (fun _ => rfl) rfl rfl (fun _ => rfl) (fun _ => rfl) rfl rfl
      (fun _ _ => rfl) (fun _ => rfl) (fun _ _ => rfl) rfl (fun _ => rfl) rfl st Open
    cases hi : CDockWidget.toggleViewInternal st Open with
    | none => simp [hi]
    | some pr =>
        rw [hi] at h
        simp only [Option.elim] at h ⊢
        rw [h]
        rfl

/-- C8: a window-title-change event sets the tab text and the toggle-action
text to the new title, marks the owning area's title-bar tab menu outdated
exactly when an area is assigned, and emits exactly one `titleChanged`
notification carrying the new title. -/
theorem title_change_event (st : World)
    (hTab : st.w.hasTab = true) (hAct : st.w.hasAction = true) :
    TitleChangeSpec st := by
  simp only [TitleChangeSpec]
  cases harea : st.area <;>
    simp [CDockWidget.event, hTab, hAct, harea, List.filter, Effect.isTitleChanged]

/-- C9: calling `setToolbarFloatingStyle` on a widget with a tool bar, with a
floating flag whose effective icon size and button style already equal the
tool bar's current ones, performs zero toolkit icon-size or button-style
calls (and leaves the state untouched). -/
theorem toolbar_restyle_idempotent (ws : WidgetState) (Floating : Bool)
    (hTB : ws.hasToolBar = true)
    (hIcon : (if Floating then ws.ToolBarIconSizeFloating else ws.ToolBarIconSizeDocked)
      = ws.toolBarIconSize)
    (hStyle : (if Floating then ws.ToolBarStyleFloating else ws.ToolBarStyleDocked)
      = ws.toolBarButtonStyle) :
    (CDockWidget.setToolbarFloatingStyle ws Floating).2.filter Effect.isToolBarCall = [] ∧
    CDockWidget.setToolbarFloatingStyle ws Floating = (ws, []) := by
  simp [CDockWidget.setToolbarFloatingStyle, hTB, hIcon, hStyle]

/-- C10: `emitTopLevelChanged(f)` updates the cached top-level-floating flag
and emits `topLevelChanged` exactly when `f` differs from the cached flag;
repeating the call with the same value emits nothing, and a top-level event
requested for a widget whose cached flag already equals the requested value
produces no `topLevelChanged` notification. -/
theorem emitTopLevelChanged_iff_changes (ws : WidgetState) (f : Bool) (st : World) :
    (f ≠ ws.IsFloatingTopLevel →
      CDockWidget.emitTopLevelChanged ws f
        = ({ ws with IsFloatingTopLevel := f }, [Effect.sigTopLevelChanged f])) ∧
    (f = ws.IsFloatingTopLevel → CDockWidget.emitTopLevelChanged ws f = (ws, [])) ∧
    (CDockWidget.emitTopLevelChanged (CDockWidget.emitTopLevelChanged ws f).1 f).2 = [] ∧
    (st.w.IsFloatingTopLevel = f →
      (CDockWidget.emitTopLevelEventForWidget st (some st.w.id) f).2.filter
        Effect.isTopLevelChanged = []) := by
  refine ⟨?_, ?_, ?_, ?_⟩
  · intro h
    simp [CDockWidget.emitTopLevelChanged, bne_iff_ne, h]
  · intro h
    simp [CDockWidget.emitTopLevelChanged, h]
  · by_cases h : f = ws.IsFloatingTopLevel <;>
      simp [CDockWidget.emitTopLevelChanged, h, bne_iff_ne]
  · intro h
    simp [CDockWidget.emitTopLevelEventForWidget, CDockWidget.emitTopLevelChanged, h,
      List.filter, Effect.isTopLevelChanged]



theorem toggleViewInternal_isSome (st : World) (Open : Bool)
    (h : Open = true ∨ st.area.isSome = true) :
    (CDockWidget.toggleViewInternal st Open).isSome = true := by
  have hTLEa : ∀ (s : World) (tl : Option Nat) (b : Bool),
      (CDockWidget.emitTopLevelEventForWidget s tl b).1.area = s.area :=
    fun s tl b => (emitTLE_fields s tl b).1
  rcases st with ⟨w, area⟩
  cases Open
  · rcases h with h | h
    · exact absurd h (by simp)
    · cases area with
      | none => simp at h
      | some a =>
          cases hcf : a.containerFloating <;>
          cases hn : a.nextOpenDockWidget w.id <;>
            simp [CDockWidget.toggleViewInternal, DockWidgetPrivate.hideDockWidget,
              DockWidgetPrivate.updateParentDockArea, dockContainer_eq,
              QAction.setChecked, hn, hcf, hTLEa]
  · cases area with
    | none =>
        simp [CDockWidget.toggleViewInternal, DockWidgetPrivate.showDockWidget,
          dockContainer_eq, QAction.setChecked, hTLEa]
    | some a =>
        cases hcf : a.containerFloating <;>
        cases htl : a.containerTopLevel <;>
          simp [CDockWidget.toggleViewInternal, DockWidgetPrivate.showDockWidget,
            dockContainer_eq, QAction.setChecked, hcf, htl, hTLEa]

/-- C2: after any `setDockArea` and after any completed real transition
(`toggleViewInternal`), the toggle action's checked state equals (dock-area
reference non-null AND widget not closed). -/
theorem toggle_action_checked_invariant (st : World) (a : Option AreaModel)
    (Open : Bool) :
    CheckedInvariantSpec (CDockWidget.setDockArea st a).1 ∧
    (CDockWidget.toggleViewInternal st Open).elim True
      (fun pr => CheckedInvariantSpec pr.1) := by
  constructor
  · rcases a with _ | a <;>
      simp [CheckedInvariantSpec, CDockWidget.setDockArea, QAction.setChecked,
        CDockWidget.isClosed]
  · have h := toggleViewInternal_state st Open
    cases hi : CDockWidget.toggleViewInternal st Open with
    | none => simp
    | some pr =>
        rw [hi] at h
        simp only [Option.elim] at h ⊢
        obtain ⟨hc, hk, _, hs, _, _⟩ := h
        simp [CheckedInvariantSpec, hc, hk, hs]

/-- C3 counterexample: the claim "the re-queried container is never null at
the window-title-refresh dereference" is false — the fresh widget `logsWidget`
(open, unassigned, trivially a well-formed graph) closed through
`toggleViewInternal(false)` reaches line 476's `DockContainer->floatingWidget()`
with a null container, so the transition has no defined outcome (`none`). -/
theorem transition_null_container_counterexample :
    ¬ (∀ st : World, st.wellFormed = true → ∀ Open : Bool,
        (CDockWidget.toggleViewInternal st Open).isSome = true) := by
  intro h
  have h2 := h logsWidget rfl false
  rw [show CDockWidget.toggleViewInternal logsWidget false = none from rfl] at h2
  simp at h2

/-- C3 amended: for every real open transition, and for every close
transition of an assigned widget, the re-queried post-transition container is
non-null, so the unguarded dereference is safe and the transition has a
defined outcome; only a close transition on an unassigned widget reaches the
dereference with a null container. -/
theorem transition_container_nonnull (st : World) (Open : Bool)
    (h : Open = true ∨ st.area.isSome = true) :
    (CDockWidget.toggleViewInternal st Open).isSome = true :=
  toggleViewInternal_isSome st Open h

theorem transition_container_nonnull_witness :
    (true = true ∨ logsClosedUnassigned.area.isSome = true) ∧
    (CDockWidget.toggleViewInternal logsClosedUnassigned true).isSome = true :=
  ⟨Or.inl rfl, transition_container_nonnull logsClosedUnassigned true (Or.inl rfl)⟩




/-- C4: a real open transition on an unassigned closed widget creates a new
floating top-level container sized to the widget's current size and shows it,
after which the widget is not closed and its toggle action is checked; on an
assigned widget the same transition asks the area to become visible, makes
the widget current, shows its tab, shows every hidden splitter ancestor, and
shows the owning floating container when the container is floating. -/
theorem open_transition_behaviour (st : World)
    (hClosed : st.w.Closed = true) (hwf : st.wellFormed = true) :
    (st.area = none → OpenUnassignedSpec st) ∧
    (∀ a, st.area = some a → OpenAssignedSpec st a) := by
  have hTLEa : ∀ (s : World) (tl : Option Nat) (b : Bool),
      (CDockWidget.emitTopLevelEventForWidget s tl b).1.area = s.area :=
    fun s tl b => (emitTLE_fields s tl b).1
  have hTLEc : ∀ (s : World) (tl : Option Nat) (b : Bool),
      (CDockWidget.emitTopLevelEventForWidget s tl b).1.w.Closed = s.w.Closed :=
    fun s tl b => (emitTLE_fields s tl b).2.1
  have hTLEk : ∀ (s : World) (tl : Option Nat) (b : Bool),
      (CDockWidget.emitTopLevelEventForWidget s tl b).1.w.actionChecked = s.w.actionChecked :=
    fun s tl b => (emitTLE_fields s tl b).2.2.1
  have hTLEt : ∀ (s : World) (tl : Option Nat) (b : Bool),
      (CDockWidget.emitTopLevelEventForWidget s tl b).1.w.tabVisible = s.w.tabVisible :=
    fun s tl b => (emitTLE_fields s tl b).2.2.2.2.1
  constructor
  · intro harea
    unfold OpenUnassignedSpec
    simp [CDockWidget.toggleViewInternal, DockWidgetPrivate.showDockWidget,
      dockContainer_eq, QAction.setChecked, CDockWidget.isClosed, harea,
      hTLEa, hTLEc, hTLEk, hTLEt]
  · intro a harea
    have hchain : splitterChainOk a.splitters = true := by
      simp [World.wellFormed, harea, Bool.and_eq_true] at hwf
      exact hwf.2
    have hrep := showSplitters_of_chainOk a.splitters hchain
    unfold OpenAssignedSpec
    cases hcf : a.containerFloating <;>
    cases htl : a.containerTopLevel <;>
      simp [CDockWidget.toggleViewInternal, DockWidgetPrivate.showDockWidget,
        dockContainer_eq, QAction.setChecked, CDockWidget.isClosed, harea,
        hcf, htl, hrep, hTLEa, hTLEc, hTLEk, hTLEt]



/-- C5: a real close transition on an assigned open widget hides its tab and
then either makes the area's next open dock widget current (area stays
visible) or, when no open widget remains — exactly when `nextOpenDockWidget`
returns none — signals the area to hide itself entirely. -/
theorem close_transition_behaviour (st : World) (a : AreaModel)
    (harea : st.area = some a) (hOpen : st.w.Closed = false)
    (hVis : a.visible = true) :
    CloseTransitionSpec st a := by
  have hTLEa : ∀ (s : World) (tl : Option Nat) (b : Bool),
      (CDockWidget.emitTopLevelEventForWidget s tl b).1.area = s.area :=
    fun s tl b => (emitTLE_fields s tl b).1
  have hTLEt : ∀ (s : World) (tl : Option Nat) (b : Bool),
      (CDockWidget.emitTopLevelEventForWidget s tl b).1.w.tabVisible = s.w.tabVisible :=
    fun s tl b => (emitTLE_fields s tl b).2.2.2.2.1
  have hiff : a.nextOpenDockWidget st.w.id = none ↔
      ∀ p ∈ a.widgets, p.1 = st.w.id ∨ p.2 = false := by
    simp only [AreaModel.nextOpenDockWidget, Option.map_eq_none', List.find?_eq_none,
      Bool.and_eq_true, decide_eq_true_eq, not_and, ne_eq, Bool.not_eq_true]
    constructor
    · intro h p hp
      by_cases he : p.1 = st.w.id
      · exact Or.inl he
      · exact Or.inr (h p hp he)
    · intro h p hp hne
      rcases h p hp with h1 | h1
      · exact absurd h1 hne
      · exact h1
  refine ⟨?_, ?_, hiff⟩
  · exact toggleViewInternal_isSome st false (Or.inr (by simp [harea]))
  · cases hcf : a.containerFloating <;>
    cases hn : a.nextOpenDockWidget st.w.id <;>
      simp [CDockWidget.toggleViewInternal, DockWidgetPrivate.hideDockWidget,
        DockWidgetPrivate.updateParentDockArea, dockContainer_eq, QAction.setChecked,
        harea, hcf, hn, hVis, hTLEa, hTLEt]



theorem toggleView_eq_internal (st : World) (Open : Bool) (h : st.w.Closed = Open) :
    CDockWidget.toggleView st false Open = CDockWidget.toggleViewInternal st Open := by
  cases Open <;> simp [CDockWidget.toggleView, h]

theorem toggleView_noop_open_some (st : World) (a : AreaModel)
    (h : st.w.Closed = false) (ha : st.area = some a) :
    CDockWidget.toggleView st false true
      = some ({ st with area := some { a with current := some st.w.id } },
        [Effect.setCurrentDockWidget st.w.id]) := by
  simp [CDockWidget.toggleView, h, ha]

theorem toggleView_noop_open_none (st : World)
    (h : st.w.Closed = false) (ha : st.area = none) :
    CDockWidget.toggleView st false true = some (st, []) := by
  simp [CDockWidget.toggleView, h, ha]

/-- C1 counterexample: the claim's unconditional "whenever the requested
state differs from the current state, exactly one real transition is
performed" is false — on the fresh widget `logsWidget` (open, unassigned,
well-formed) the call `toggleView(false)` requests a state that differs from
the current one, yet the attempted close transition crashes at the null
container dereference before `viewToggled` is ever emitted, so no real
transition completes. -/
theorem toggleView_differ_counterexample :
    ¬ (∀ st : World, st.wellFormed = true → ∀ Open : Bool,
        st.w.Closed = Open → ToggleDifferSpec st Open) := by
  intro h
  have h2 := (h logsWidget rfl false rfl).1
  rw [show CDockWidget.toggleView logsWidget false false = none from rfl] at h2
  simp at h2

/-- C1 amended: a `toggleView(open)` call whose requested state equals the
current state performs no real transition when the state is open — the widget
record, signals and transition count are untouched and the widget merely
becomes current in its assigned area; whenever the requested state differs,
exactly one real transition is performed provided the transition completes,
i.e. the requested state is open or the widget is assigned (a close request
on an unassigned widget crashes before any transition completes, as the C1
counterexample and C3 show); and `toggleView(true)` twice on a closed widget
yields exactly one real transition and exactly one current-widget update. -/
theorem toggleView_transition_discipline (st : World) (hwf : st.wellFormed = true) :
    (st.w.Closed = false → ToggleNoOpSpec st) ∧
    (∀ Open, st.w.Closed = Open → (Open = true ∨ st.area.isSome = true) →
      ToggleDifferSpec st Open) ∧
    (st.w.Closed = true → ToggleTwiceSpec st) := by
  have hVT := toggleViewInternal_filter Effect.isViewToggled
    (fun _ => rfl) (fun _ => rfl) rfl rfl (fun _ => rfl) (fun _ => rfl) rfl rfl
    (fun _ _ => rfl) (fun _ => rfl) (fun _ _ => rfl) rfl (fun _ => rfl) rfl
  refine ⟨?_, ?_, ?_⟩
  · intro h
    unfold ToggleNoOpSpec
    cases harea : st.area with
    | none =>
        rw [toggleView_noop_open_none st h harea]
        simp [harea, realTransitionCount]
    | some a =>
        rw [toggleView_noop_open_some st a h harea]
        simp [harea, realTransitionCount, List.filter, Effect.isSignal,
          Effect.isViewToggled]
  · intro Open hco hcond
    unfold ToggleDifferSpec
    rw [toggleView_eq_internal st Open hco]
    refine ⟨toggleViewInternal_isSome st Open hcond, ?_⟩
    have hf := hVT st Open
    cases hi : CDockWidget.toggleViewInternal st Open with
    | none => simp
    | some pr =>
        rw [hi] at hf
        simp only [Option.elim] at hf ⊢
        simp [realTransitionCount, hf, List.filter, Effect.isViewToggled]
  · intro h
    unfold ToggleTwiceSpec
    rw [toggleView_eq_internal st true h]
    have hsome := toggleViewInternal_isSome st true (Or.inl rfl)
    refine ⟨hsome, ?_⟩
    have hstate := toggleViewInternal_state st true
    have hf := hVT st true
    cases hi : CDockWidget.toggleViewInternal st true with
    | none => simp
    | some pr1 =>
        rw [hi] at hstate hf
        simp only [Option.elim] at hstate hf ⊢
        obtain ⟨hc1, hk1, hid1, hs1, hcw1, _⟩ := hstate
        simp only [Bool.not_true] at hc1
        obtain ⟨a1, ha1⟩ := Option.isSome_iff_exists.mp hs1
        rw [toggleView_noop_open_some pr1.1 a1 hc1 ha1]
        refine ⟨rfl, ?_⟩
        simp only [Option.elim]
        constructor
        · simp [realTransitionCount, List.filter_append, hf, List.filter,
            Effect.isViewToggled]
        · have hcw2 : (⟨pr1.1.w, some { a1 with current := some pr1.1.w.id }⟩ :
              World).currentWidget = some st.w.id := by
            simp [World.currentWidget, hid1]
          have hbeq : (st.currentWidget == some st.w.id) = false := by
            cases harea0 : st.area with
            | none => simp [World.currentWidget, harea0]
            | some a0 =>
                simp only [World.wellFormed, harea0, Bool.and_eq_true] at hwf
                have h2 := hwf.1.2
                rw [h] at h2
                simp only [Bool.not_true, Bool.false_or] at h2
                simp [World.currentWidget, harea0]
                intro hcur
                rw [hcur] at h2
                simp at h2
          rw [hcw1 trivial]
          simp [changeCount, hbeq, hcw2]

/-- Witness for C1 at concrete inputs: a closed assigned widget (one real
transition, one current-widget change over two open calls) and an open
assigned widget (pure no-op path). -/
theorem toggleView_transition_discipline_witness :
    logsClosedAssigned.wellFormed = true ∧
    logsClosedAssigned.w.Closed = true ∧
    ToggleTwiceSpec logsClosedAssigned ∧
    ToggleDifferSpec logsClosedAssigned true ∧
    logsOpenAssigned.wellFormed = true ∧
    logsOpenAssigned.w.Closed = false ∧
    ToggleNoOpSpec logsOpenAssigned :=
  ⟨rfl, rfl,
    (toggleView_transition_discipline logsClosedAssigned rfl).2.2 rfl,
    (toggleView_transition_discipline logsClosedAssigned rfl).2.1 true rfl (Or.inl rfl),
    rfl, rfl,
    (toggleView_transition_discipline logsOpenAssigned rfl).1 rfl⟩

/-- Witness for C4 at concrete inputs: the spec's "Logs" scenario (unassigned
and closed) and a closed widget assigned to `sampleArea`. -/
theorem open_transition_behaviour_witness :
    logsClosedUnassigned.w.Closed = true ∧
    logsClosedUnassigned.wellFormed = true ∧
    OpenUnassignedSpec logsClosedUnassigned ∧
    logsClosedAssigned.w.Closed = true ∧
    logsClosedAssigned.wellFormed = true ∧
    OpenAssignedSpec logsClosedAssigned sampleArea :=
  ⟨rfl, rfl, (open_transition_behaviour logsClosedUnassigned rfl rfl).1 rfl,
   rfl, rfl, (open_transition_behaviour logsClosedAssigned rfl rfl).2 sampleArea rfl⟩

/-- Witness for C5 at concrete inputs: closing a non-last open widget and
closing the last open widget of an area. -/
theorem close_transition_behaviour_witness :
    logsOpenAssigned.area = some sampleAreaAllOpen ∧
    logsOpenAssigned.w.Closed = false ∧
    sampleAreaAllOpen.visible = true ∧
    CloseTransitionSpec logsOpenAssigned sampleAreaAllOpen ∧
    CloseTransitionSpec logsOpenLast sampleAreaOnlyLogsOpen :=
  ⟨rfl, rfl, rfl,
    close_transition_behaviour logsOpenAssigned sampleAreaAllOpen rfl rfl rfl,
    close_transition_behaviour logsOpenLast sampleAreaOnlyLogsOpen rfl rfl rfl⟩

/-- Witness for C8 at a concrete input with a tab, an action and an assigned
area. -/
theorem title_change_event_witness :
    logsClosedAssigned.w.hasTab = true ∧
    logsClosedAssigned.w.hasAction = true ∧
    TitleChangeSpec logsClosedAssigned :=
  ⟨rfl, rfl, title_change_event logsClosedAssigned rfl rfl⟩

/-- Witness for C9 at a concrete tool-bar state whose docked icon size and
button style already match the tool bar. -/
theorem toolbar_restyle_idempotent_witness :
    toolBarWidget.hasToolBar = true ∧
    (if false then toolBarWidget.ToolBarIconSizeFloating
      else toolBarWidget.ToolBarIconSizeDocked) = toolBarWidget.toolBarIconSize ∧
    (if false then toolBarWidget.ToolBarStyleFloating
      else toolBarWidget.ToolBarStyleDocked) = toolBarWidget.toolBarButtonStyle ∧
    ((CDockWidget.setToolbarFloatingStyle toolBarWidget false).2.filter
        Effect.isToolBarCall = [] ∧
      CDockWidget.setToolbarFloatingStyle toolBarWidget false = (toolBarWidget, [])) :=
  ⟨rfl, rfl, rfl, toolbar_restyle_idempotent toolBarWidget false rfl rfl rfl⟩

/-- Witness for C10 at a concrete input: a fresh widget whose cached flag is
false — requesting true emits once, requesting false emits nothing. -/
theorem emitTopLevelChanged_iff_changes_witness :
    (true ≠ logsWidget.w.IsFloatingTopLevel) ∧
    CDockWidget.emitTopLevelChanged logsWidget.w true
      = ({ logsWidget.w with IsFloatingTopLevel := true },
          [Effect.sigTopLevelChanged true]) ∧
    (false = logsWidget.w.IsFloatingTopLevel) ∧
    CDockWidget.emitTopLevelChanged logsWidget.w false = (logsWidget.w, []) ∧
    (logsWidget.w.IsFloatingTopLevel = false) ∧
    (CDockWidget.emitTopLevelEventForWidget logsWidget (some logsWidget.w.id)
        false).2.filter Effect.isTopLevelChanged = [] :=
  ⟨by decide,
    (emitTopLevelChanged_iff_changes logsWidget.w true logsWidget).1 (by decide),
    rfl,
    (emitTopLevelChanged_iff_changes logsWidget.w false logsWidget).2.1 rfl,
    rfl,
    (emitTopLevelChanged_iff_changes logsWidget.w false logsWidget).2.2.2 rfl⟩

end ADS
